import Mathlib

/-!
Verification of the PrismWorlds client-side forms.

Shallow embedding of `src/pages/SignUp.tsx` and
`src/components/CreateLessonModal.tsx` (which also contains the
`StudentDetailModal` component).  Strings are modelled as Lean `String`
(lists of code points), JavaScript truthiness of `string | undefined`
fields as `optTruthy`, and the two anchored regular expressions as
executable character-class checks.
-/

set_option maxHeartbeats 1000000

namespace PrismWorlds

/-- JavaScript whitespace (`\s` in a regular expression, and the set removed
by `String.prototype.trim`): space, tab, LF, VT, FF, CR, NBSP, and the
Unicode space separators, line/paragraph separators and BOM. -/
def isJsWhitespace (c : Char) : Bool :=
  let n := c.toNat
  n == 0x20 || n == 0x09 || n == 0x0a || n == 0x0b || n == 0x0c || n == 0x0d ||
  n == 0xa0 || n == 0x1680 || decide (0x2000 ≤ n ∧ n ≤ 0x200a) ||
  n == 0x2028 || n == 0x2029 || n == 0x202f || n == 0x205f || n == 0x3000 || n == 0xfeff

/-- `s.trim()` is truthy in JavaScript iff some character of `s` is not
whitespace (trimming only removes whitespace at both ends). -/
def trimNonEmpty (s : String) : Bool :=
  s.toList.any (fun c => !(isJsWhitespace c))

/-- One character of the class `[a-zA-Z\s.,'-]` used by `validateTextOnly`
in both source files. -/
def isTextOnlyChar (c : Char) : Bool :=
  let n := c.toNat
  decide (97 ≤ n ∧ n ≤ 122) || decide (65 ≤ n ∧ n ≤ 90) || isJsWhitespace c ||
  n == 46 || n == 44 || n == 39 || n == 45

/-- `/^[a-zA-Z\s.,'-]+$/.test s`: `s` is non-empty and every character is in
the class. -/
def textOnlyMatch (s : String) : Bool :=
  !s.toList.isEmpty && s.toList.all isTextOnlyChar

/-- One character of the class `[^\s@]` used by the e-mail regular
expression. -/
def isEmailChar (c : Char) : Bool :=
  !(isJsWhitespace c) && !(c == '@')

/-- `/^[^\s@]+@[^\s@]+\.[^\s@]+$/.test s`: a non-empty local part without
whitespace or `@`, a single `@`, then a domain without whitespace or `@`
containing a `.` that is neither its first nor its last character (the
backtracking split of `[^\s@]+\.[^\s@]+`). -/
def emailMatch (s : String) : Bool :=
  let l := s.toList
  let localPart := l.takeWhile (fun c => !(c == '@'))
  match l.dropWhile (fun c => !(c == '@')) with
  | [] => false
  | _ :: domain =>
      !localPart.isEmpty && localPart.all isEmailChar && domain.all isEmailChar &&
      ((domain.drop 1).dropLast.contains '.')

/-- `validateTextOnly` as written (identically) in `SignUp.tsx` and
`CreateLessonModal.tsx`: an error message when the value is truthy and
fails the text-only regular expression, `undefined` otherwise. -/
def validateTextOnly (value : String) (fieldName : String) : Option String :=
  if !value.isEmpty && !(textOnlyMatch value) then
    some (fieldName ++ " can only contain letters, spaces, and basic punctuation")
  else none

/-- JavaScript truthiness of a `string | undefined` field: `undefined` and
the empty string are falsy. -/
def optTruthy : Option String → Bool
  | none => false
  | some s => !s.isEmpty

namespace SignUp

/-- The `role` field of `FormData` in `SignUp.tsx`. -/
inductive Role where
  | student
  | teacher
deriving DecidableEq, Repr

/-- The `FormData` interface of `SignUp.tsx`; the optional fields are
`undefined` (`none`) until the corresponding input fires a change event. -/
structure FormData where
  name : String
  email : String
  password : String
  confirmPassword : String
  role : Role
  grade : Option String := none
  school : Option String := none
  state : Option String := none
deriving Repr, DecidableEq

/-- The `FormErrors` interface of `SignUp.tsx`: a key is present (`some`)
exactly when `validateForm` assigned it. -/
structure FormErrors where
  name : Option String := none
  email : Option String := none
  password : Option String := none
  confirmPassword : Option String := none
  grade : Option String := none
  school : Option String := none
  state : Option String := none
  general : Option String := none
deriving Repr, DecidableEq

/-- Name block of `validateForm`: required, then `validateTextOnly`. -/
def nameError (f : FormData) : Option String :=
  if !(trimNonEmpty f.name) then some "Name is required"
  else validateTextOnly f.name "Name"

/-- E-mail block of `validateForm`: required, then the e-mail regex. -/
def emailError (f : FormData) : Option String :=
  if !(trimNonEmpty f.email) then some "Email is required"
  else if !(emailMatch f.email) then some "Please enter a valid email address"
  else none

/-- Password block of `validateForm`. -/
def passwordError (f : FormData) : Option String :=
  if f.password.isEmpty then some "Password is required"
  else if f.password.length < 6 then some "Password must be at least 6 characters long"
  else none

/-- Confirm-password block of `validateForm`. -/
def confirmPasswordError (f : FormData) : Option String :=
  if f.confirmPassword.isEmpty then some "Please confirm your password"
  else if f.password ≠ f.confirmPassword then some "Passwords do not match"
  else none

/-- Role-specific block of `validateForm`: grade required for students. -/
def gradeError (f : FormData) : Option String :=
  if f.role = Role.student then
    if !(optTruthy f.grade) then some "Grade is required for students" else none
  else none

/-- School block of `validateForm`: `validateTextOnly` when the field is
truthy. -/
def schoolError (f : FormData) : Option String :=
  match f.school with
  | some s => if !s.isEmpty then validateTextOnly s "School name" else none
  | none => none

/-- The `newErrors` object built by `validateForm` in `SignUp.tsx`. -/
def validateFormErrors (f : FormData) : FormErrors :=
  { name := nameError f
    email := emailError f
    password := passwordError f
    confirmPassword := confirmPasswordError f
    grade := gradeError f
    school := schoolError f }

/-- `Object.keys(newErrors).length === 0`: no error key was assigned. -/
def errorsIsEmpty (e : FormErrors) : Bool :=
  e.name.isNone && e.email.isNone && e.password.isNone && e.confirmPassword.isNone &&
  e.grade.isNone && e.school.isNone && e.state.isNone && e.general.isNone

/-- The boolean returned by `validateForm` in `SignUp.tsx`. -/
def validateForm (f : FormData) : Bool :=
  errorsIsEmpty (validateFormErrors f)

/-- The `userData` object built in `handleSubmit` of `SignUp.tsx` and
serialised under the `'currentUser'` key.  A field is `some` exactly when
the corresponding key survives `JSON.stringify` (conditional spreads for
`grade`, `school` and `state`; `grade: undefined` is dropped by
`JSON.stringify`). -/
structure UserData where
  id : String
  name : String
  email : String
  role : Role
  grade : Option String := none
  school : Option String := none
  state : Option String := none
  joinDate : String
deriving Repr, DecidableEq

/-- The `userData` record as a function of the form state, with the
nondeterministic `Date.now().toString()` and `new Date().toISOString()`
passed in as parameters. -/
def mkUserData (f : FormData) (nowId : String) (joinDate : String) : UserData :=
  { id := nowId
    name := f.name
    email := f.email
    role := f.role
    grade := if f.role = Role.student then f.grade else none
    school := if optTruthy f.school then f.school else none
    state := if optTruthy f.state then f.state else none
    joinDate := joinDate }

/-- Observable outcome of one run of `handleSubmit` in `SignUp.tsx`:
whether `setIsSubmitting(true)` ran, the sequence of `localStorage.setItem`
calls, the final `isSuccess`, the route passed to `navigate`, the final
`errors` state, and the final `isSubmitting` (set in the `finally`
block). -/
structure SubmitResult where
  enteredSubmitting : Bool
  storageWrites : List (String × UserData)
  isSuccess : Bool
  navTarget : Option String
  errors : FormErrors
  isSubmittingFinal : Bool
deriving Repr, DecidableEq

/-- `handleSubmit` of `SignUp.tsx`.  `apiFails` injects the only possible
exception of the `try` block (the simulated API call rejecting), which the
`catch` clause turns into the static `general` error. -/
def handleSubmit (f : FormData) (nowId : String) (joinDate : String)
    (apiFails : Bool) : SubmitResult :=
  if validateForm f = false then
    { enteredSubmitting := false
      storageWrites := []
      isSuccess := false
      navTarget := none
      errors := validateFormErrors f
      isSubmittingFinal := false }
  else if apiFails then
    { enteredSubmitting := true
      storageWrites := []
      isSuccess := false
      navTarget := none
      errors := { general := some "Registration failed. Please try again." }
      isSubmittingFinal := false }
  else
    { enteredSubmitting := true
      storageWrites := [("currentUser", mkUserData f nowId joinDate)]
      isSuccess := true
      navTarget := some (if f.role = Role.student then "/dashboard" else "/teacher")
      errors := {}
      isSubmittingFinal := false }

end SignUp

/-- Numeric value of one radix digit (`0`-`9`, `a`-`z`, `A`-`Z`), as used
by JavaScript `parseInt`. -/
def digitVal (c : Char) : Option Nat :=
  let n := c.toNat
  if 48 ≤ n ∧ n ≤ 57 then some (n - 48)
  else if 97 ≤ n ∧ n ≤ 122 then some (n - 97 + 10)
  else if 65 ≤ n ∧ n ≤ 90 then some (n - 65 + 10)
  else none

/-- Longest prefix of digits valid in the given radix. -/
def leadingDigits (radix : Nat) : List Char → List Nat
  | [] => []
  | c :: cs =>
    match digitVal c with
    | some d => if d < radix then d :: leadingDigits radix cs else []
    | none => []

/-- Value of a big-endian digit list. -/
def valOfDigits (radix : Nat) (ds : List Nat) : Nat :=
  ds.foldl (fun a d => a * radix + d) 0

/-- JavaScript `parseInt(s)` with the radix argument omitted: strip leading
whitespace, read an optional sign, detect a `0x`/`0X` hexadecimal prefix,
parse the longest valid digit prefix; `none` models `NaN`. -/
def jsParseInt (s : String) : Option Int :=
  let l := s.toList.dropWhile isJsWhitespace
  let signAndRest : Int × List Char :=
    match l with
    | '-' :: rest => (-1, rest)
    | '+' :: rest => (1, rest)
    | _ => (1, l)
  let radixAndRest : Nat × List Char :=
    match signAndRest.2 with
    | '0' :: 'x' :: rest => (16, rest)
    | '0' :: 'X' :: rest => (16, rest)
    | _ => (10, signAndRest.2)
  let ds := leadingDigits radixAndRest.1 radixAndRest.2
  if ds.isEmpty then none
  else some (signAndRest.1 * (valOfDigits radixAndRest.1 ds : Int))

/-- `parseInt(value) || 0`: `NaN` is falsy and becomes `0`; the number `0`
is falsy and `0 || 0` is still `0`; any other integer is returned. -/
def jsParseIntOr0 (s : String) : Int :=
  match jsParseInt s with
  | none => 0
  | some v => v

namespace Lesson

/-- The `difficulty` field of `LessonFormData`. -/
inductive Difficulty where
  | Beginner
  | Intermediate
  | Advanced
deriving DecidableEq, Repr

/-- The `LessonFormData` interface of `CreateLessonModal.tsx`. -/
structure LessonFormData where
  title : String
  subject : String
  description : String
  duration : Int
  objectives : List String
  difficulty : Difficulty
  category : String
  prerequisites : String
  materials : List String
deriving Repr, DecidableEq

/-- The initial state passed to `useState` (and restored by the form reset
in `handleSubmit` and by `handleClose`). -/
def initialForm : LessonFormData :=
  { title := ""
    subject := ""
    description := ""
    duration := 30
    objectives := [""]
    difficulty := Difficulty.Beginner
    category := ""
    prerequisites := ""
    materials := [""] }

/-- The `FormErrors` interface of `CreateLessonModal.tsx`. -/
structure FormErrors where
  title : Option String := none
  subject : Option String := none
  description : Option String := none
  duration : Option String := none
  objectives : Option String := none
  category : Option String := none
deriving Repr, DecidableEq

/-- Title block of `validateForm`: required, then `validateTextOnly`. -/
def titleError (f : LessonFormData) : Option String :=
  if !(trimNonEmpty f.title) then some "Lesson title is required"
  else validateTextOnly f.title "Title"

/-- Subject block of `validateForm`. -/
def subjectError (f : LessonFormData) : Option String :=
  if !(trimNonEmpty f.subject) then some "Subject is required"
  else none

/-- Description block of `validateForm`: required, then a length bound on
the untrimmed description. -/
def descriptionError (f : LessonFormData) : Option String :=
  if !(trimNonEmpty f.description) then some "Description is required"
  else if f.description.length < 20 then some "Description must be at least 20 characters long"
  else none

/-- Duration block of `validateForm`. -/
def durationError (f : LessonFormData) : Option String :=
  if f.duration < 15 ∨ f.duration > 180 then some "Duration must be between 15 and 180 minutes"
  else none

/-- Objectives block of `validateForm`: at least one objective whose
trimmed value is truthy. -/
def objectivesError (f : LessonFormData) : Option String :=
  if (f.objectives.filter (fun o => trimNonEmpty o)).isEmpty then
    some "At least one learning objective is required"
  else none

/-- Category block of `validateForm`. -/
def categoryError (f : LessonFormData) : Option String :=
  if !(trimNonEmpty f.category) then some "Category is required"
  else none

/-- The `newErrors` object built by `validateForm` in
`CreateLessonModal.tsx`. -/
def validateFormErrors (f : LessonFormData) : FormErrors :=
  { title := titleError f
    subject := subjectError f
    description := descriptionError f
    duration := durationError f
    objectives := objectivesError f
    category := categoryError f }

/-- `Object.keys(newErrors).length === 0`. -/
def errorsIsEmpty (e : FormErrors) : Bool :=
  e.title.isNone && e.subject.isNone && e.description.isNone &&
  e.duration.isNone && e.objectives.isNone && e.category.isNone

/-- The boolean returned by `validateForm` in `CreateLessonModal.tsx`. -/
def validateForm (f : LessonFormData) : Bool :=
  errorsIsEmpty (validateFormErrors f)

/-- The `cleanedData` object of `handleSubmit`: whitespace-only objectives
and materials are filtered out before the `onSave` callback. -/
def cleanedData (f : LessonFormData) : LessonFormData :=
  { f with
    objectives := f.objectives.filter (fun o => trimNonEmpty o)
    materials := f.materials.filter (fun m => trimNonEmpty m) }

/-- Observable outcome of one run of `handleSubmit` in
`CreateLessonModal.tsx`: whether `setIsSubmitting(true)` ran, the sequence
of browser storage writes performed (the function performs none), the
argument of the `onSave` callback if it was invoked, the form state after
the run, whether `onClose` was invoked, the final `errors` state, and the
final `isSubmitting`. -/
structure LessonSubmitResult where
  enteredSubmitting : Bool
  storageWrites : List (String × String)
  savedLesson : Option LessonFormData
  formAfter : LessonFormData
  closedModal : Bool
  errors : FormErrors
  isSubmittingFinal : Bool
deriving Repr, DecidableEq

/-- `handleSubmit` of `CreateLessonModal.tsx`.  `apiFails` injects the only
possible exception of the `try` block (the simulated API call rejecting),
which the `catch` clause merely logs. -/
def handleSubmit (f : LessonFormData) (apiFails : Bool) : LessonSubmitResult :=
  if validateForm f = false then
    { enteredSubmitting := false
      storageWrites := []
      savedLesson := none
      formAfter := f
      closedModal := false
      errors := validateFormErrors f
      isSubmittingFinal := false }
  else if apiFails then
    { enteredSubmitting := true
      storageWrites := []
      savedLesson := none
      formAfter := f
      closedModal := false
      errors := validateFormErrors f
      isSubmittingFinal := false }
  else
    { enteredSubmitting := true
      storageWrites := []
      savedLesson := some (cleanedData f)
      formAfter := initialForm
      closedModal := true
      errors := validateFormErrors f
      isSubmittingFinal := false }

/-- `filter((_, i) => i !== index)` of JavaScript arrays: keep the entries
whose position differs from `index`. -/
def filterOutIndex (l : List String) (index : Nat) : List String :=
  (l.enum.filter (fun p => p.1 ≠ index)).map Prod.snd

/-- The user-interface events that modify the lesson form state.  The
indexed events come from `map` over the rendered lists, so their indices
are in range; `List.set` is assignment at an in-range index. -/
inductive LessonAction where
  | setTitle (v : String)
  | setSubject (v : String)
  | setDescription (v : String)
  | setDurationInput (v : String)
  | setDifficulty (d : Difficulty)
  | setCategory (v : String)
  | setPrerequisites (v : String)
  | objectiveChange (i : Nat) (v : String)
  | addObjective
  | removeObjective (i : Nat)
  | materialChange (i : Nat) (v : String)
  | addMaterial
  | removeMaterial (i : Nat)
  | submitForm (apiFails : Bool)
  | closeModal
deriving Repr, DecidableEq

/-- Effect of each event on the form state: `handleChange` (with the
`parseInt(value) || 0` special case for `duration`), the objective and
material handlers, `handleSubmit` and `handleClose` of
`CreateLessonModal.tsx`. -/
def applyAction (f : LessonFormData) : LessonAction → LessonFormData
  | LessonAction.setTitle v => { f with title := v }
  | LessonAction.setSubject v => { f with subject := v }
  | LessonAction.setDescription v => { f with description := v }
  | LessonAction.setDurationInput v => { f with duration := jsParseIntOr0 v }
  | LessonAction.setDifficulty d => { f with difficulty := d }
  | LessonAction.setCategory v => { f with category := v }
  | LessonAction.setPrerequisites v => { f with prerequisites := v }
  | LessonAction.objectiveChange i v => { f with objectives := f.objectives.set i v }
  | LessonAction.addObjective => { f with objectives := f.objectives ++ [""] }
  | LessonAction.removeObjective i =>
      if 1 < f.objectives.length then { f with objectives := filterOutIndex f.objectives i }
      else f
  | LessonAction.materialChange i v => { f with materials := f.materials.set i v }
  | LessonAction.addMaterial => { f with materials := f.materials ++ [""] }
  | LessonAction.removeMaterial i =>
      if 1 < f.materials.length then { f with materials := filterOutIndex f.materials i }
      else f
  | LessonAction.submitForm apiFails => (handleSubmit f apiFails).formAfter
  | LessonAction.closeModal => initialForm

/-- The implicit invariant of claim C9: both lists stay non-empty. -/
def listsNonEmptyInv (f : LessonFormData) : Prop :=
  1 ≤ f.objectives.length ∧ 1 ≤ f.materials.length

instance (f : LessonFormData) : Decidable (listsNonEmptyInv f) := by
  unfold listsNonEmptyInv; infer_instance

end Lesson

namespace StudentDetail

/-- Little-endian base-10 digits, with explicit fuel so the definition is
structural (fuel `n` suffices since `n / 10 < n` for `n > 0`). -/
def natDigitsAux : Nat → Nat → List Nat
  | 0, _ => []
  | _ + 1, 0 => []
  | fuel + 1, n + 1 => ((n + 1) % 10) :: natDigitsAux fuel ((n + 1) / 10)

/-- Little-endian base-10 digits of `n` (empty for `0`). -/
def natDigits10 (n : Nat) : List Nat :=
  natDigitsAux n n

/-- The decimal digit character for a value below 10. -/
def decDigitChar (d : Nat) : Char :=
  ['0', '1', '2', '3', '4', '5', '6', '7', '8', '9'].getD d '*'

/-- Left inverse of `decDigitChar` on values below 10. -/
def decCharVal (c : Char) : Nat :=
  if c = '1' then 1 else if c = '2' then 2 else if c = '3' then 3
  else if c = '4' then 4 else if c = '5' then 5 else if c = '6' then 6
  else if c = '7' then 7 else if c = '8' then 8 else if c = '9' then 9 else 0

/-- Insert a `,` after every three characters of a least-significant-first
digit list: the en-US thousands grouping of `toLocaleString`, built from
the right of the displayed number. -/
def groupedRev : List Char → List Char
  | [] => []
  | [a] => [a]
  | [a, b] => [a, b]
  | [a, b, c] => [a, b, c]
  | a :: b :: c :: d :: rest => a :: b :: c :: ',' :: groupedRev (d :: rest)

/-- The characters of `n.toLocaleString()` (en-US default locale):
decimal digits with `,` thousands separators. -/
def natLocaleChars (n : Nat) : List Char :=
  if n = 0 then ['0']
  else (groupedRev ((natDigits10 n).map decDigitChar)).reverse

/-- The characters of `i.toLocaleString()` for an integer. -/
def intLocaleChars (i : Int) : List Char :=
  if i < 0 then '-' :: natLocaleChars i.natAbs
  else natLocaleChars i.natAbs

/-- `Number.prototype.toLocaleString` (en-US grouping) on an integer, as
called on `student.ecoPoints` in `StudentDetailModal`. -/
def intToLocaleString (i : Int) : String :=
  String.mk (intLocaleChars i)

/-- Value of a little-endian base-10 digit list. -/
def valOfRevDigits (ds : List Nat) : Nat :=
  ds.foldr (fun d acc => d + 10 * acc) 0

/-- Parse a grouped decimal rendering back to the natural number: drop the
`,` separators and read the digits least-significant first. -/
def decodeNatChars (l : List Char) : Nat :=
  valOfRevDigits ((l.reverse.filter (fun c => c ≠ ',')).map decCharVal)

/-- Parse a grouped decimal rendering of an integer. -/
def decodeIntChars (l : List Char) : Int :=
  if l.head? = some '-' then -(decodeNatChars l.tail : Int)
  else (decodeNatChars l : Int)

/-- The `Student` interface of `StudentDetailModal` (inside
`CreateLessonModal.tsx`); numeric fields are integers in the mock data. -/
structure Student where
  id : String
  name : String
  grade : String
  ecoPoints : Int
  completedChallenges : Int
  streak : Int
  avatar : String
  school : String
  state : String
  joinDate : Option String := none
  level : Option Int := none
  completedLessons : Option Int := none
  badges : Option Int := none
deriving Repr, DecidableEq

/-- One entry of the `performanceData` array (the icon component is
dropped; it is not data). -/
structure PerfMetric where
  label : String
  value : String
  color : String
  bgColor : String
deriving Repr, DecidableEq

/-- `student.level || Math.floor(student.ecoPoints / 200) + 1`:
`undefined` and `0` are falsy and fall back to the computed level. -/
def displayedLevel (st : Student) : Int :=
  match st.level with
  | some l => if l = 0 then st.ecoPoints.fdiv 200 + 1 else l
  | none => st.ecoPoints.fdiv 200 + 1

/-- The `performanceData` array of `StudentDetailModal`. -/
def performanceData (st : Student) : List PerfMetric :=
  [ { label := "Eco Points"
      value := intToLocaleString st.ecoPoints
      color := "text-[#F8D991]"
      bgColor := "bg-[#F8D991]/20" }
  , { label := "Current Level"
      value := toString (displayedLevel st)
      color := "text-[#F6B080]"
      bgColor := "bg-[#F6B080]/20" }
  , { label := "Challenges Completed"
      value := toString st.completedChallenges
      color := "text-[#E1664C]"
      bgColor := "bg-[#E1664C]/20" }
  , { label := "Current Streak"
      value := toString st.streak ++ " days"
      color := "text-[#F58B60]"
      bgColor := "bg-[#F58B60]/20" } ]

end StudentDetail

theorem trimNonEmpty_not_isEmpty {s : String} (h : trimNonEmpty s = true) :
    s.isEmpty = false := by
  cases hs : s.isEmpty
  · rfl
  · exfalso
    have : s = "" := (String.isEmpty_iff _).mp hs
    subst this
    simp [trimNonEmpty] at h

theorem validateTextOnly_eq_none (v fn : String) :
    validateTextOnly v fn = none ↔ (v.isEmpty = true ∨ textOnlyMatch v = true) := by
  unfold validateTextOnly
  cases h1 : v.isEmpty <;> cases h2 : textOnlyMatch v <;> simp [h1, h2]

namespace SignUp

theorem nameError_eq_none (f : FormData) :
    nameError f = none ↔ (trimNonEmpty f.name ∧ textOnlyMatch f.name) := by
  unfold nameError
  cases h : trimNonEmpty f.name
  · simp [h]
  · simp [h, validateTextOnly_eq_none, trimNonEmpty_not_isEmpty h]

theorem emailError_eq_none (f : FormData) :
    emailError f = none ↔ (trimNonEmpty f.email ∧ emailMatch f.email) := by
  unfold emailError
  cases h1 : trimNonEmpty f.email <;> cases h2 : emailMatch f.email <;> simp [h1, h2]

theorem passwordError_eq_none (f : FormData) :
    passwordError f = none ↔ (f.password ≠ "" ∧ 6 ≤ f.password.length) := by
  unfold passwordError
  cases h1 : f.password.isEmpty
  · have hne : f.password ≠ "" := fun he => by rw [he] at h1; exact absurd h1 (by decide)
    by_cases h2 : f.password.length < 6
    · simp [h1, h2, hne]
    · simp [h1, h2, hne]
      omega
  · have he : f.password = "" := (String.isEmpty_iff _).mp h1
    simp [h1, he]

theorem confirmPasswordError_eq_none (f : FormData) :
    confirmPasswordError f = none ↔
      (f.confirmPassword ≠ "" ∧ f.confirmPassword = f.password) := by
  unfold confirmPasswordError
  cases h1 : f.confirmPassword.isEmpty
  · have hne : f.confirmPassword ≠ "" := fun he => by rw [he] at h1; exact absurd h1 (by decide)
    by_cases h2 : f.password = f.confirmPassword
    · simp [h1, h2, hne]
    · simp [h1, h2, hne]
      intro h3
      exact h2 h3.symm
  · have he : f.confirmPassword = "" := (String.isEmpty_iff _).mp h1
    simp [h1, he]

theorem gradeError_eq_none (f : FormData) :
    gradeError f = none ↔ (f.role = Role.student → optTruthy f.grade) := by
  unfold gradeError
  by_cases h1 : f.role = Role.student
  · cases h2 : optTruthy f.grade <;> simp [h1, h2]
  · simp [h1]

theorem schoolError_eq_none (f : FormData) :
    schoolError f = none ↔
      (optTruthy f.school → textOnlyMatch (f.school.getD "")) := by
  unfold schoolError
  cases hs : f.school with
  | none => simp [optTruthy]
  | some s =>
    cases h1 : s.isEmpty
    · simp [h1, optTruthy, validateTextOnly_eq_none]
    · simp [h1, optTruthy]

theorem validateForm_eq_true_iff (f : FormData) :
    validateForm f = true ↔
      (nameError f = none ∧ emailError f = none ∧ passwordError f = none ∧
       confirmPasswordError f = none ∧ gradeError f = none ∧ schoolError f = none) := by
  unfold validateForm errorsIsEmpty validateFormErrors
  simp [Option.isNone_iff_eq_none, and_assoc]

end SignUp

end PrismWorlds

open PrismWorlds

/-- Claim C1: `validateForm` of the sign-up page returns `true` iff the
trimmed name is non-empty and the name matches the text-only regex, the
trimmed e-mail is non-empty and matches the e-mail regex, the password is
non-empty of length at least 6, the confirm-password field is non-empty and
equal to the password, a grade is present whenever the role is `student`,
and the school field, when present, matches the text-only regex; moreover
every failing field gets an error message recorded in `newErrors`. -/
theorem claim_C1_signUp_validateForm (f : SignUp.FormData) :
    (SignUp.validateForm f = true ↔
      (trimNonEmpty f.name ∧ textOnlyMatch f.name ∧
       trimNonEmpty f.email ∧ emailMatch f.email ∧
       f.password ≠ "" ∧ 6 ≤ f.password.length ∧
       f.confirmPassword ≠ "" ∧ f.confirmPassword = f.password ∧
       (f.role = SignUp.Role.student → optTruthy f.grade) ∧
       (optTruthy f.school → textOnlyMatch (f.school.getD "")))) ∧
    (SignUp.nameError f = none ↔ (trimNonEmpty f.name ∧ textOnlyMatch f.name)) ∧
    (SignUp.emailError f = none ↔ (trimNonEmpty f.email ∧ emailMatch f.email)) ∧
    (SignUp.passwordError f = none ↔ (f.password ≠ "" ∧ 6 ≤ f.password.length)) ∧
    (SignUp.confirmPasswordError f = none ↔
      (f.confirmPassword ≠ "" ∧ f.confirmPassword = f.password)) ∧
    (SignUp.gradeError f = none ↔ (f.role = SignUp.Role.student → optTruthy f.grade)) ∧
    (SignUp.schoolError f = none ↔
      (optTruthy f.school → textOnlyMatch (f.school.getD ""))) := by
  refine ⟨?_, SignUp.nameError_eq_none f, SignUp.emailError_eq_none f,
    SignUp.passwordError_eq_none f, SignUp.confirmPasswordError_eq_none f,
    SignUp.gradeError_eq_none f, SignUp.schoolError_eq_none f⟩
  rw [SignUp.validateForm_eq_true_iff, SignUp.nameError_eq_none,
    SignUp.emailError_eq_none, SignUp.passwordError_eq_none,
    SignUp.confirmPasswordError_eq_none, SignUp.gradeError_eq_none,
    SignUp.schoolError_eq_none]
  tauto

/-- A concrete sign-up form state that passes every check. -/
def goodSignUpForm : SignUp.FormData :=
  { name := "Alice Smith"
    email := "alice@school.org"
    password := "secret1"
    confirmPassword := "secret1"
    role := SignUp.Role.student
    grade := some "8th"
    school := some "Green Valley School"
    state := some "Kerala" }

/-- Witness for claim C1 at a concrete form state. -/
theorem claim_C1_witness : SignUp.validateForm goodSignUpForm = true :=
  (claim_C1_signUp_validateForm goodSignUpForm).1.mpr (by decide)

/-- A concrete teacher form state that passes every check. -/
def goodTeacherForm : SignUp.FormData :=
  { name := "Bob Stone"
    email := "bob@school.org"
    password := "secret1"
    confirmPassword := "secret1"
    role := SignUp.Role.teacher }

/-- A concrete student form state that fails validation (missing grade). -/
def badStudentForm : SignUp.FormData :=
  { goodSignUpForm with grade := none }

namespace PrismWorlds

theorem optTruthy_isSome {o : Option String} (h : optTruthy o = true) :
    o.isSome = true := by
  cases o <;> simp_all [optTruthy]

end PrismWorlds

/-- Claim C3: sign-up submission branches on role — a valid student form
redirects to `/dashboard`, a valid teacher form to `/teacher`; and the
grade field is required exactly for students: a student form with a falsy
grade fails validation, while for a teacher the validation outcome does
not depend on the grade field at all. -/
theorem claim_C3_role_branching :
    (∀ (f : SignUp.FormData) (nowId joinDate : String),
      SignUp.validateForm f = true → f.role = SignUp.Role.student →
        (SignUp.handleSubmit f nowId joinDate false).navTarget = some "/dashboard") ∧
    (∀ (f : SignUp.FormData) (nowId joinDate : String),
      SignUp.validateForm f = true → f.role = SignUp.Role.teacher →
        (SignUp.handleSubmit f nowId joinDate false).navTarget = some "/teacher") ∧
    (∀ f : SignUp.FormData, f.role = SignUp.Role.student → optTruthy f.grade = false →
      SignUp.validateForm f = false) ∧
    (∀ (f : SignUp.FormData) (g : Option String), f.role = SignUp.Role.teacher →
      SignUp.validateForm { f with grade := g } = SignUp.validateForm f) := by
  refine ⟨?_, ?_, ?_, ?_⟩
  · intro f nowId joinDate hv hr
    simp [SignUp.handleSubmit, hv, hr]
  · intro f nowId joinDate hv hr
    simp [SignUp.handleSubmit, hv, hr]
  · intro f hr hg
    simp [SignUp.validateForm, SignUp.errorsIsEmpty, SignUp.validateFormErrors,
      SignUp.gradeError, hr, hg]
  · intro f g hr
    simp [SignUp.validateForm, SignUp.errorsIsEmpty, SignUp.validateFormErrors,
      SignUp.nameError, SignUp.emailError, SignUp.passwordError,
      SignUp.confirmPasswordError, SignUp.gradeError, SignUp.schoolError, hr]

/-- Witness for claim C3 at concrete form states. -/
theorem claim_C3_witness :
    (SignUp.handleSubmit goodSignUpForm "1" "2026-01-01" false).navTarget = some "/dashboard" ∧
    (SignUp.handleSubmit goodTeacherForm "1" "2026-01-01" false).navTarget = some "/teacher" ∧
    SignUp.validateForm badStudentForm = false ∧
    SignUp.validateForm { goodTeacherForm with grade := some "8th" } =
      SignUp.validateForm goodTeacherForm :=
  ⟨claim_C3_role_branching.1 goodSignUpForm "1" "2026-01-01" (by decide) rfl,
   claim_C3_role_branching.2.1 goodTeacherForm "1" "2026-01-01" (by decide) rfl,
   claim_C3_role_branching.2.2.1 badStudentForm rfl (by decide),
   claim_C3_role_branching.2.2.2 goodTeacherForm (some "8th") rfl⟩

/-- Claim C4: when `validateForm` returns `false`, `handleSubmit` of the
sign-up page returns before the simulated delay: it never enters the
submitting state, performs no `localStorage` write, does not set success,
does not navigate, and the only state change is the per-field error
record. -/
theorem claim_C4_validation_gate (f : SignUp.FormData) (nowId joinDate : String)
    (apiFails : Bool) (h : SignUp.validateForm f = false) :
    SignUp.handleSubmit f nowId joinDate apiFails =
      { enteredSubmitting := false
        storageWrites := []
        isSuccess := false
        navTarget := none
        errors := SignUp.validateFormErrors f
        isSubmittingFinal := false } := by
  simp [SignUp.handleSubmit, h]

/-- Witness for claim C4 at a concrete invalid form state. -/
theorem claim_C4_witness :
    SignUp.handleSubmit badStudentForm "1" "2026-01-01" false =
      { enteredSubmitting := false
        storageWrites := []
        isSuccess := false
        navTarget := none
        errors := SignUp.validateFormErrors badStudentForm
        isSubmittingFinal := false } :=
  claim_C4_validation_gate badStudentForm "1" "2026-01-01" false (by decide)

/-- Claim C5: every run of the sign-up `handleSubmit` that passes
validation enters the submitting state and ends either in the success
state or in the error state whose only content is the static message
`Registration failed. Please try again.`; in both outcomes `isSubmitting`
is reset to `false` by the `finally` block. -/
theorem claim_C5_submit_state_machine (f : SignUp.FormData) (nowId joinDate : String)
    (apiFails : Bool) (h : SignUp.validateForm f = true) :
    (SignUp.handleSubmit f nowId joinDate apiFails).enteredSubmitting = true ∧
    (if apiFails then
      (SignUp.handleSubmit f nowId joinDate apiFails).isSuccess = false ∧
      (SignUp.handleSubmit f nowId joinDate apiFails).errors =
        { general := some "Registration failed. Please try again." }
     else
      (SignUp.handleSubmit f nowId joinDate apiFails).isSuccess = true) ∧
    (SignUp.handleSubmit f nowId joinDate apiFails).isSubmittingFinal = false := by
  cases apiFails <;> simp [SignUp.handleSubmit, h]

/-- Witness for claim C5 at a concrete valid form state, in both the
success and the injected-failure outcome. -/
theorem claim_C5_witness :
    ((SignUp.handleSubmit goodSignUpForm "1" "2026-01-01" false).enteredSubmitting = true ∧
     (if false then
       (SignUp.handleSubmit goodSignUpForm "1" "2026-01-01" false).isSuccess = false ∧
       (SignUp.handleSubmit goodSignUpForm "1" "2026-01-01" false).errors =
         { general := some "Registration failed. Please try again." }
      else
       (SignUp.handleSubmit goodSignUpForm "1" "2026-01-01" false).isSuccess = true) ∧
     (SignUp.handleSubmit goodSignUpForm "1" "2026-01-01" false).isSubmittingFinal = false) ∧
    ((SignUp.handleSubmit goodSignUpForm "1" "2026-01-01" true).enteredSubmitting = true ∧
     (if true then
       (SignUp.handleSubmit goodSignUpForm "1" "2026-01-01" true).isSuccess = false ∧
       (SignUp.handleSubmit goodSignUpForm "1" "2026-01-01" true).errors =
         { general := some "Registration failed. Please try again." }
      else
       (SignUp.handleSubmit goodSignUpForm "1" "2026-01-01" true).isSuccess = true) ∧
     (SignUp.handleSubmit goodSignUpForm "1" "2026-01-01" true).isSubmittingFinal = false) :=
  ⟨claim_C5_submit_state_machine goodSignUpForm "1" "2026-01-01" false (by decide),
   claim_C5_submit_state_machine goodSignUpForm "1" "2026-01-01" true (by decide)⟩

/-- Claim C6: on successful sign-up exactly one storage write occurs, under
the key `currentUser`; the stored record carries the form's name, e-mail
and role plus an id and joinDate, contains a grade key iff the role is
student, a school key iff a non-empty school was entered, and a state key
iff a non-empty state was selected. -/
theorem claim_C6_storage_record (f : SignUp.FormData) (nowId joinDate : String)
    (h : SignUp.validateForm f = true) :
    (SignUp.handleSubmit f nowId joinDate false).storageWrites =
      [("currentUser", SignUp.mkUserData f nowId joinDate)] ∧
    (SignUp.mkUserData f nowId joinDate).id = nowId ∧
    (SignUp.mkUserData f nowId joinDate).name = f.name ∧
    (SignUp.mkUserData f nowId joinDate).email = f.email ∧
    (SignUp.mkUserData f nowId joinDate).role = f.role ∧
    (SignUp.mkUserData f nowId joinDate).joinDate = joinDate ∧
    ((SignUp.mkUserData f nowId joinDate).grade.isSome = true ↔
      f.role = SignUp.Role.student) ∧
    ((SignUp.mkUserData f nowId joinDate).school.isSome = true ↔
      optTruthy f.school = true) ∧
    ((SignUp.mkUserData f nowId joinDate).state.isSome = true ↔
      optTruthy f.state = true) := by
  have hg : f.role = SignUp.Role.student → optTruthy f.grade = true :=
    (SignUp.gradeError_eq_none f).mp
      (((SignUp.validateForm_eq_true_iff f).mp h).2.2.2.2.1)
  refine ⟨by simp [SignUp.handleSubmit, h], rfl, rfl, rfl, rfl, rfl, ?_, ?_, ?_⟩
  · by_cases hr : f.role = SignUp.Role.student
    · simp [SignUp.mkUserData, hr, PrismWorlds.optTruthy_isSome (hg hr)]
    · simp [SignUp.mkUserData, hr]
  · by_cases hs : optTruthy f.school = true
    · simp [SignUp.mkUserData, hs, PrismWorlds.optTruthy_isSome hs]
    · simp [SignUp.mkUserData, hs]
  · by_cases hs : optTruthy f.state = true
    · simp [SignUp.mkUserData, hs, PrismWorlds.optTruthy_isSome hs]
    · simp [SignUp.mkUserData, hs]

/-- Witness for claim C6 at a concrete valid form state. -/
theorem claim_C6_witness :
    (SignUp.handleSubmit goodSignUpForm "1738000000000" "2026-01-01T00:00:00.000Z" false).storageWrites =
      [("currentUser", SignUp.mkUserData goodSignUpForm "1738000000000" "2026-01-01T00:00:00.000Z")] ∧
    (SignUp.mkUserData goodSignUpForm "1738000000000" "2026-01-01T00:00:00.000Z").id = "1738000000000" ∧
    (SignUp.mkUserData goodSignUpForm "1738000000000" "2026-01-01T00:00:00.000Z").name = goodSignUpForm.name ∧
    (SignUp.mkUserData goodSignUpForm "1738000000000" "2026-01-01T00:00:00.000Z").email = goodSignUpForm.email ∧
    (SignUp.mkUserData goodSignUpForm "1738000000000" "2026-01-01T00:00:00.000Z").role = goodSignUpForm.role ∧
    (SignUp.mkUserData goodSignUpForm "1738000000000" "2026-01-01T00:00:00.000Z").joinDate = "2026-01-01T00:00:00.000Z" ∧
    ((SignUp.mkUserData goodSignUpForm "1738000000000" "2026-01-01T00:00:00.000Z").grade.isSome = true ↔
      goodSignUpForm.role = SignUp.Role.student) ∧
    ((SignUp.mkUserData goodSignUpForm "1738000000000" "2026-01-01T00:00:00.000Z").school.isSome = true ↔
      optTruthy goodSignUpForm.school = true) ∧
    ((SignUp.mkUserData goodSignUpForm "1738000000000" "2026-01-01T00:00:00.000Z").state.isSome = true ↔
      optTruthy goodSignUpForm.state = true) :=
  claim_C6_storage_record goodSignUpForm "1738000000000" "2026-01-01T00:00:00.000Z" (by decide)

namespace PrismWorlds

namespace Lesson

theorem titleError_eq_none (f : LessonFormData) :
    titleError f = none ↔ (trimNonEmpty f.title ∧ textOnlyMatch f.title) := by
  unfold titleError
  cases h : trimNonEmpty f.title
  · simp [h]
  · simp [h, validateTextOnly_eq_none, trimNonEmpty_not_isEmpty h]

theorem subjectError_eq_none (f : LessonFormData) :
    subjectError f = none ↔ trimNonEmpty f.subject = true := by
  unfold subjectError
  cases h : trimNonEmpty f.subject <;> simp [h]

theorem descriptionError_eq_none (f : LessonFormData) :
    descriptionError f = none ↔
      (trimNonEmpty f.description ∧ 20 ≤ f.description.length) := by
  unfold descriptionError
  cases h1 : trimNonEmpty f.description
  · simp [h1]
  · by_cases h2 : f.description.length < 20
    · simp [h1, h2]
    · simp [h1, h2]
      omega

theorem durationError_eq_none (f : LessonFormData) :
    durationError f = none ↔ (15 ≤ f.duration ∧ f.duration ≤ 180) := by
  unfold durationError
  by_cases h : f.duration < 15 ∨ f.duration > 180
  · simp [h]
    omega
  · simp [h]
    omega

theorem objectivesError_eq_none (f : LessonFormData) :
    objectivesError f = none ↔ f.objectives.any (fun o => trimNonEmpty o) = true := by
  unfold objectivesError
  cases hc : (f.objectives.filter (fun o => trimNonEmpty o)).isEmpty <;>
    simp_all [List.isEmpty_iff, List.filter_eq_nil_iff, List.any_eq_true]

theorem categoryError_eq_none (f : LessonFormData) :
    categoryError f = none ↔ trimNonEmpty f.category = true := by
  unfold categoryError
  cases h : trimNonEmpty f.category <;> simp [h]

theorem lessonValidateForm_eq_true_iff (f : LessonFormData) :
    validateForm f = true ↔
      (titleError f = none ∧ subjectError f = none ∧ descriptionError f = none ∧
       durationError f = none ∧ objectivesError f = none ∧ categoryError f = none) := by
  unfold validateForm errorsIsEmpty validateFormErrors
  simp [Option.isNone_iff_eq_none, and_assoc]

end Lesson

end PrismWorlds

/-- Claim C2: `validateForm` of the lesson modal returns `true` iff the
trimmed title is non-empty and matches the text-only regex, the trimmed
subject is non-empty, the trimmed description is non-empty and the
description is at least 20 characters long, the duration lies between 15
and 180 minutes inclusive, at least one objective is non-whitespace, and
the trimmed category is non-empty; moreover every failing field gets an
error message recorded in `newErrors`. -/
theorem claim_C2_lesson_validateForm (f : Lesson.LessonFormData) :
    (Lesson.validateForm f = true ↔
      (trimNonEmpty f.title ∧ textOnlyMatch f.title ∧
       trimNonEmpty f.subject ∧
       trimNonEmpty f.description ∧ 20 ≤ f.description.length ∧
       15 ≤ f.duration ∧ f.duration ≤ 180 ∧
       f.objectives.any (fun o => trimNonEmpty o) ∧
       trimNonEmpty f.category)) ∧
    (Lesson.titleError f = none ↔ (trimNonEmpty f.title ∧ textOnlyMatch f.title)) ∧
    (Lesson.subjectError f = none ↔ trimNonEmpty f.subject = true) ∧
    (Lesson.descriptionError f = none ↔
      (trimNonEmpty f.description ∧ 20 ≤ f.description.length)) ∧
    (Lesson.durationError f = none ↔ (15 ≤ f.duration ∧ f.duration ≤ 180)) ∧
    (Lesson.objectivesError f = none ↔ f.objectives.any (fun o => trimNonEmpty o) = true) ∧
    (Lesson.categoryError f = none ↔ trimNonEmpty f.category = true) := by
  refine ⟨?_, Lesson.titleError_eq_none f, Lesson.subjectError_eq_none f,
    Lesson.descriptionError_eq_none f, Lesson.durationError_eq_none f,
    Lesson.objectivesError_eq_none f, Lesson.categoryError_eq_none f⟩
  rw [Lesson.lessonValidateForm_eq_true_iff, Lesson.titleError_eq_none,
    Lesson.subjectError_eq_none, Lesson.descriptionError_eq_none,
    Lesson.durationError_eq_none, Lesson.objectivesError_eq_none,
    Lesson.categoryError_eq_none]
  tauto

/-- A concrete lesson form state that passes every check. -/
def goodLessonForm : Lesson.LessonFormData :=
  { title := "The Water Cycle"
    subject := "Environmental Science"
    description := "A lesson about the water cycle on Earth."
    duration := 45
    objectives := ["Understand evaporation", "  "]
    difficulty := Lesson.Difficulty.Beginner
    category := "Theory"
    prerequisites := ""
    materials := ["Chart paper", " "] }

/-- Witness for claim C2 at a concrete lesson form state. -/
theorem claim_C2_witness : Lesson.validateForm goodLessonForm = true :=
  (claim_C2_lesson_validateForm goodLessonForm).1.mpr (by decide)


namespace PrismWorlds

namespace Lesson

theorem enumFrom_filter_ne_of_lt (xs : List String) (m i : Nat) (h : i < m) :
    (xs.enumFrom m).filter (fun p => p.1 ≠ i) = xs.enumFrom m := by
  induction xs generalizing m with
  | nil => rfl
  | cons x xs ih =>
    simp only [List.enumFrom_cons, List.filter_cons]
    have hc : (decide ((m, x).1 ≠ i)) = true := by
      simp only [decide_eq_true_iff]
      omega
    rw [hc, if_pos rfl, ih (m + 1) (by omega)]

theorem enumFrom_filter_ne_length (xs : List String) (m i : Nat) :
    xs.length - 1 ≤ ((xs.enumFrom m).filter (fun p => p.1 ≠ i)).length := by
  induction xs generalizing m with
  | nil => simp
  | cons x xs ih =>
    simp only [List.enumFrom_cons, List.filter_cons]
    by_cases hm : m = i
    · subst hm
      have hc : (decide ((m, x).1 ≠ m)) = false := by simp
      rw [hc, if_neg (by simp), enumFrom_filter_ne_of_lt xs (m + 1) m (by omega)]
      simp
    · have hc : (decide ((m, x).1 ≠ i)) = true := by
        simp only [decide_eq_true_iff]
        omega
      rw [hc, if_pos rfl]
      have := ih (m + 1)
      simp only [List.length_cons] at *
      omega

theorem length_filterOutIndex (l : List String) (i : Nat) :
    l.length - 1 ≤ (filterOutIndex l i).length := by
  unfold filterOutIndex
  rw [List.length_map]
  exact enumFrom_filter_ne_length l 0 i

end Lesson

end PrismWorlds

/-- Claim C9: the objectives and materials lists of the lesson form state
always have length at least one — the invariant holds in the initial state
and is preserved by every user-interface event, including removal, which
refuses to drop the last remaining entry. -/
theorem claim_C9_lists_invariant :
    Lesson.listsNonEmptyInv Lesson.initialForm ∧
    ∀ (f : Lesson.LessonFormData) (a : Lesson.LessonAction),
      Lesson.listsNonEmptyInv f → Lesson.listsNonEmptyInv (Lesson.applyAction f a) := by
  constructor
  · exact ⟨by decide, by decide⟩
  · intro f a hinv
    obtain ⟨h1, h2⟩ := hinv
    cases a with
    | setTitle v => exact ⟨h1, h2⟩
    | setSubject v => exact ⟨h1, h2⟩
    | setDescription v => exact ⟨h1, h2⟩
    | setDurationInput v => exact ⟨h1, h2⟩
    | setDifficulty d => exact ⟨h1, h2⟩
    | setCategory v => exact ⟨h1, h2⟩
    | setPrerequisites v => exact ⟨h1, h2⟩
    | objectiveChange i v =>
      refine ⟨?_, h2⟩
      simpa [Lesson.applyAction, Lesson.listsNonEmptyInv] using h1
    | addObjective =>
      refine ⟨?_, h2⟩
      simp [Lesson.applyAction, Lesson.listsNonEmptyInv]
    | removeObjective i =>
      simp only [Lesson.applyAction]
      split
      · next hlen =>
        refine ⟨?_, h2⟩
        have := Lesson.length_filterOutIndex f.objectives i
        simp only [Lesson.listsNonEmptyInv]
        omega
      · exact ⟨h1, h2⟩
    | materialChange i v =>
      refine ⟨h1, ?_⟩
      simpa [Lesson.applyAction, Lesson.listsNonEmptyInv] using h2
    | addMaterial =>
      refine ⟨h1, ?_⟩
      simp [Lesson.applyAction, Lesson.listsNonEmptyInv]
    | removeMaterial i =>
      simp only [Lesson.applyAction]
      split
      · next hlen =>
        refine ⟨h1, ?_⟩
        have := Lesson.length_filterOutIndex f.materials i
        simp only [Lesson.listsNonEmptyInv]
        omega
      · exact ⟨h1, h2⟩
    | submitForm apiFails =>
      simp only [Lesson.applyAction, Lesson.handleSubmit]
      split
      · exact ⟨h1, h2⟩
      · split
        · exact ⟨h1, h2⟩
        · show Lesson.listsNonEmptyInv Lesson.initialForm
          exact ⟨by decide, by decide⟩
    | closeModal =>
      show Lesson.listsNonEmptyInv Lesson.initialForm
      exact ⟨by decide, by decide⟩

/-- Witness for claim C9: the invariant survives removing the only
objective of the initial state. -/
theorem claim_C9_witness :
    Lesson.listsNonEmptyInv
      (Lesson.applyAction Lesson.initialForm (Lesson.LessonAction.removeObjective 0)) :=
  claim_C9_lists_invariant.2 Lesson.initialForm (Lesson.LessonAction.removeObjective 0)
    claim_C9_lists_invariant.1

/-- Claim C8: a lesson is never persisted — `handleSubmit` of the lesson
modal performs no browser storage write on any run, and on a validated
successful run its only output is the `onSave` callback, which receives the
form data with whitespace-only objectives and materials filtered out and
every other field unchanged, after which the form is reset to its initial
defaults and the modal is closed. -/
theorem claim_C8_lesson_no_persistence :
    (∀ (f : Lesson.LessonFormData) (b : Bool),
      (Lesson.handleSubmit f b).storageWrites = []) ∧
    (∀ f : Lesson.LessonFormData, Lesson.validateForm f = true →
      (Lesson.handleSubmit f false).savedLesson = some (Lesson.cleanedData f) ∧
      (Lesson.cleanedData f).objectives = f.objectives.filter (fun o => trimNonEmpty o) ∧
      (Lesson.cleanedData f).materials = f.materials.filter (fun m => trimNonEmpty m) ∧
      (Lesson.cleanedData f).title = f.title ∧
      (Lesson.cleanedData f).subject = f.subject ∧
      (Lesson.cleanedData f).description = f.description ∧
      (Lesson.cleanedData f).duration = f.duration ∧
      (Lesson.cleanedData f).difficulty = f.difficulty ∧
      (Lesson.cleanedData f).category = f.category ∧
      (Lesson.cleanedData f).prerequisites = f.prerequisites ∧
      (Lesson.handleSubmit f false).formAfter = Lesson.initialForm ∧
      (Lesson.handleSubmit f false).closedModal = true) := by
  constructor
  · intro f b
    unfold Lesson.handleSubmit
    split
    · rfl
    · split <;> rfl
  · intro f h
    refine ⟨?_, rfl, rfl, rfl, rfl, rfl, rfl, rfl, rfl, rfl, ?_, ?_⟩ <;>
      simp [Lesson.handleSubmit, h]

/-- Witness for claim C8 at a concrete valid lesson form state. -/
theorem claim_C8_witness :
    (Lesson.handleSubmit goodLessonForm true).storageWrites = [] ∧
    (Lesson.handleSubmit goodLessonForm false).savedLesson =
      some (Lesson.cleanedData goodLessonForm) ∧
    (Lesson.handleSubmit goodLessonForm false).formAfter = Lesson.initialForm ∧
    (Lesson.handleSubmit goodLessonForm false).closedModal = true :=
  ⟨claim_C8_lesson_no_persistence.1 goodLessonForm true,
   (claim_C8_lesson_no_persistence.2 goodLessonForm (by decide)).1,
   (claim_C8_lesson_no_persistence.2 goodLessonForm (by decide)).2.2.2.2.2.2.2.2.2.2.1,
   (claim_C8_lesson_no_persistence.2 goodLessonForm (by decide)).2.2.2.2.2.2.2.2.2.2.2⟩

/-- Claim C10: a duration input that does not parse as an integer is stored
as `0` by `handleChange` (never `NaN`), and that stored `0` makes
`validateForm` fail with the duration-range error, so such a state can
never reach `onSave`. -/
theorem claim_C10_duration_guard (f : Lesson.LessonFormData) (s : String) (b : Bool)
    (h : jsParseInt s = none) :
    jsParseIntOr0 s = 0 ∧
    (Lesson.applyAction f (Lesson.LessonAction.setDurationInput s)).duration = 0 ∧
    Lesson.durationError (Lesson.applyAction f (Lesson.LessonAction.setDurationInput s)) =
      some "Duration must be between 15 and 180 minutes" ∧
    Lesson.validateForm (Lesson.applyAction f (Lesson.LessonAction.setDurationInput s)) = false ∧
    (Lesson.handleSubmit (Lesson.applyAction f (Lesson.LessonAction.setDurationInput s)) b).savedLesson = none := by
  have h0 : jsParseIntOr0 s = 0 := by
    simp [jsParseIntOr0, h]
  have hdur : (Lesson.applyAction f (Lesson.LessonAction.setDurationInput s)).duration = 0 := by
    simp [Lesson.applyAction, h0]
  have herr : Lesson.durationError (Lesson.applyAction f (Lesson.LessonAction.setDurationInput s)) =
      some "Duration must be between 15 and 180 minutes" := by
    unfold Lesson.durationError
    rw [if_pos]
    rw [hdur]
    left
    omega
  have hval : Lesson.validateForm (Lesson.applyAction f (Lesson.LessonAction.setDurationInput s)) = false := by
    simp [Lesson.validateForm, Lesson.errorsIsEmpty, Lesson.validateFormErrors, herr]
  refine ⟨h0, hdur, herr, hval, ?_⟩
  simp [Lesson.handleSubmit, hval]

/-- Witness for claim C10 at the initial form state and the non-numeric
input `abc`. -/
theorem claim_C10_witness :
    jsParseIntOr0 "abc" = 0 ∧
    (Lesson.applyAction Lesson.initialForm (Lesson.LessonAction.setDurationInput "abc")).duration = 0 ∧
    Lesson.durationError (Lesson.applyAction Lesson.initialForm (Lesson.LessonAction.setDurationInput "abc")) =
      some "Duration must be between 15 and 180 minutes" ∧
    Lesson.validateForm (Lesson.applyAction Lesson.initialForm (Lesson.LessonAction.setDurationInput "abc")) = false ∧
    (Lesson.handleSubmit (Lesson.applyAction Lesson.initialForm (Lesson.LessonAction.setDurationInput "abc")) false).savedLesson = none :=
  claim_C10_duration_guard Lesson.initialForm "abc" false (by decide)

namespace PrismWorlds

namespace StudentDetail

theorem valOfRevDigits_natDigitsAux : ∀ (fuel n : Nat), n ≤ fuel →
    valOfRevDigits (natDigitsAux fuel n) = n
  | 0, n => by
    intro h
    have : n = 0 := by omega
    subst this
    rfl
  | fuel + 1, 0 => by
    intro _
    rfl
  | fuel + 1, n + 1 => by
    intro h
    have hlt : (n + 1) / 10 < n + 1 := Nat.div_lt_self (by omega) (by omega)
    have hle : (n + 1) / 10 ≤ fuel := by omega
    show ((n + 1) % 10) + 10 * valOfRevDigits (natDigitsAux fuel ((n + 1) / 10)) = n + 1
    rw [valOfRevDigits_natDigitsAux fuel ((n + 1) / 10) hle]
    omega

theorem natDigitsAux_lt : ∀ (fuel n d : Nat), d ∈ natDigitsAux fuel n → d < 10
  | 0, n, d => by simp [natDigitsAux]
  | fuel + 1, 0, d => by simp [natDigitsAux]
  | fuel + 1, n + 1, d => by
    intro h
    simp only [natDigitsAux, List.mem_cons] at h
    rcases h with h | h
    · subst h
      exact Nat.mod_lt _ (by omega)
    · exact natDigitsAux_lt fuel ((n + 1) / 10) d h

theorem filter_ne_comma_cons (x : Char) (l1 l2 : List Char)
    (h : l1.filter (fun c => c ≠ ',') = l2.filter (fun c => c ≠ ',')) :
    (x :: l1).filter (fun c => c ≠ ',') = (x :: l2).filter (fun c => c ≠ ',') := by
  rw [List.filter_cons, List.filter_cons, h]

theorem groupedRev_filter : ∀ l : List Char,
    (groupedRev l).filter (fun c => c ≠ ',') = l.filter (fun c => c ≠ ',')
  | [] => rfl
  | [a] => rfl
  | [a, b] => rfl
  | [a, b, c] => rfl
  | a :: b :: c :: d :: rest => by
    show (a :: b :: c :: ',' :: groupedRev (d :: rest)).filter (fun c => c ≠ ',') =
      (a :: b :: c :: d :: rest).filter (fun c => c ≠ ',')
    apply filter_ne_comma_cons
    apply filter_ne_comma_cons
    apply filter_ne_comma_cons
    rw [List.filter_cons, if_neg (by decide)]
    exact groupedRev_filter (d :: rest)

theorem mem_groupedRev : ∀ (l : List Char) (c : Char), c ∈ groupedRev l → c ∈ l ∨ c = ','
  | [], c => by simp [groupedRev]
  | [a], c => by
    intro h
    exact Or.inl h
  | [a, b], c => by
    intro h
    exact Or.inl h
  | [a, b, c0], c => by
    intro h
    exact Or.inl h
  | a :: b :: c0 :: d :: rest, c => by
    intro h
    simp only [groupedRev, List.mem_cons] at h
    rcases h with h | h | h | h | h
    · exact Or.inl (by simp [h])
    · exact Or.inl (by simp [h])
    · exact Or.inl (by simp [h])
    · exact Or.inr h
    · rcases mem_groupedRev (d :: rest) c h with h2 | h2
      · simp only [List.mem_cons] at h2
        rcases h2 with h2 | h2
        · exact Or.inl (by simp [h2])
        · exact Or.inl (by simp [List.mem_cons, h2])
      · exact Or.inr h2

theorem decDigitChar_ne_comma (d : Nat) : decDigitChar d ≠ ',' := by
  unfold decDigitChar
  rcases Nat.lt_or_ge d 10 with h | h
  · interval_cases d <;> decide
  · rw [List.getD_eq_default _ _ (by simpa using h)]
    decide

theorem decDigitChar_ne_minus (d : Nat) : decDigitChar d ≠ '-' := by
  unfold decDigitChar
  rcases Nat.lt_or_ge d 10 with h | h
  · interval_cases d <;> decide
  · rw [List.getD_eq_default _ _ (by simpa using h)]
    decide

theorem decCharVal_decDigitChar {d : Nat} (h : d < 10) :
    decCharVal (decDigitChar d) = d := by
  interval_cases d <;> decide

theorem decodeNatChars_natLocaleChars (n : Nat) :
    decodeNatChars (natLocaleChars n) = n := by
  unfold natLocaleChars
  by_cases h : n = 0
  · subst h
    rw [if_pos rfl]
    decide
  · rw [if_neg h]
    unfold decodeNatChars
    rw [List.reverse_reverse, groupedRev_filter,
      List.filter_eq_self.mpr ?hall, List.map_map,
      List.map_congr_left ?hid, List.map_id]
    · exact valOfRevDigits_natDigitsAux n n (Nat.le_refl n)
    case hall =>
      intro c hc
      obtain ⟨d, _, rfl⟩ := List.mem_map.mp hc
      simpa using decDigitChar_ne_comma d
    case hid =>
      intro d hd
      exact decCharVal_decDigitChar (natDigitsAux_lt n n d hd)

theorem mem_natLocaleChars_ne_minus (n : Nat) (c : Char)
    (h : c ∈ natLocaleChars n) : c ≠ '-' := by
  unfold natLocaleChars at h
  by_cases h0 : n = 0
  · subst h0
    rw [if_pos rfl] at h
    simp only [List.mem_singleton] at h
    subst h
    decide
  · rw [if_neg h0, List.mem_reverse] at h
    rcases mem_groupedRev _ c h with hc | hc
    · obtain ⟨d, _, rfl⟩ := List.mem_map.mp hc
      exact decDigitChar_ne_minus d
    · subst hc
      decide

theorem decodeIntChars_intLocaleChars (i : Int) :
    decodeIntChars (intLocaleChars i) = i := by
  by_cases h : i < 0
  · have hi : intLocaleChars i = '-' :: natLocaleChars i.natAbs := by
      unfold intLocaleChars
      rw [if_pos h]
    rw [hi]
    unfold decodeIntChars
    rw [if_pos (by rw [List.head?_cons])]
    rw [List.tail_cons, decodeNatChars_natLocaleChars]
    omega
  · have hi : intLocaleChars i = natLocaleChars i.natAbs := by
      unfold intLocaleChars
      rw [if_neg h]
    rw [hi]
    unfold decodeIntChars
    rw [if_neg ?hne, decodeNatChars_natLocaleChars]
    · omega
    case hne =>
      intro hc
      have hm : '-' ∈ natLocaleChars i.natAbs := by
        cases hl : natLocaleChars i.natAbs with
        | nil => simp [hl] at hc
        | cons a as =>
          rw [hl] at hc
          simp only [List.head?_cons, Option.some.injEq] at hc
          simp [hl, hc]
      exact mem_natLocaleChars_ne_minus _ _ hm rfl

theorem intToLocaleString_injective {a b : Int}
    (h : intToLocaleString a = intToLocaleString b) : a = b := by
  unfold intToLocaleString at h
  have hl : intLocaleChars a = intLocaleChars b := by injection h
  calc a = decodeIntChars (intLocaleChars a) := (decodeIntChars_intLocaleChars a).symm
    _ = decodeIntChars (intLocaleChars b) := by rw [hl]
    _ = b := decodeIntChars_intLocaleChars b

end StudentDetail

end PrismWorlds

/-- Claim C7: the `Eco Points` entry of the student detail modal shows the
locale rendering of exactly the `ecoPoints` integer of the input record —
the rendering is injective, so the display is verbatim and no algorithm in
scope computes it (unlike the neighbouring level entry). -/
theorem claim_C7_eco_points_verbatim :
    (∀ st : StudentDetail.Student,
      (StudentDetail.performanceData st).head? =
        some { label := "Eco Points"
               value := StudentDetail.intToLocaleString st.ecoPoints
               color := "text-[#F8D991]"
               bgColor := "bg-[#F8D991]/20" }) ∧
    (∀ i j : Int,
      StudentDetail.intToLocaleString i = StudentDetail.intToLocaleString j → i = j) :=
  ⟨fun _ => rfl, fun _ _ h => StudentDetail.intToLocaleString_injective h⟩

/-- A concrete student record from the teacher dashboard's mock data
shape. -/
def sampleStudent : StudentDetail.Student :=
  { id := "s1"
    name := "Aarav Sharma"
    grade := "8th"
    ecoPoints := 1234
    completedChallenges := 12
    streak := 5
    avatar := "avatar.png"
    school := "Green Valley School"
    state := "Kerala" }

/-- Witness for claim C7 at a concrete student record. -/
theorem claim_C7_witness :
    (StudentDetail.performanceData sampleStudent).head? =
      some { label := "Eco Points"
             value := StudentDetail.intToLocaleString 1234
             color := "text-[#F8D991]"
             bgColor := "bg-[#F8D991]/20" } ∧
    (1234 : Int) = 1234 :=
  ⟨claim_C7_eco_points_verbatim.1 sampleStudent,
   claim_C7_eco_points_verbatim.2 1234 1234 rfl⟩
